import Mathlib

/-!
Verification development for the AutoLock locker-session service.

The embedding models the persistent `sessions` table as a list of rows and
each HTTP route handler as a pure function from a database state (plus the
request inputs and the outcome of the external payment-gateway call) to the
new database state and the HTTP response.  External effects — the gateway
charge call, HMAC computation, JSON parsing, the cryptographic random
source — are passed in as explicit parameters so that the handlers stay
executable and the theorems quantify over every possible behaviour of the
collaborators.
-/

namespace AutoLock

/-- Session status vocabulary as it appears in the source.  The source uses
both `pending` (start flow, webhook qualifier in `route.ts`) and
`pending_payment` (retrieve flow, webhook qualifier in the other handler);
they are distinct strings in the database, so they are distinct here. -/
inductive Status where
  | pending
  | pending_payment
  | active
  | paid
  | ended
  | failed
  | expired
deriving DecidableEq, Repr

/-- One row of the `sessions` table (migration `001_create_sessions.sql`).
Timestamps are milliseconds since epoch. -/
structure Session where
  id : Nat
  locker_id : String
  phone : String
  status : Status
  otp_hash : Option String := none
  otp_plain : Option String := none
  otp_delivered : Bool := false
  paystack_ref : Option String := none
  amount_initial : Nat := 0
  amount_final : Nat := 0
  started_at : Option Nat := none
  ended_at : Option Nat := none
  created_at : Nat := 0
deriving DecidableEq, Repr

/-- The database: the list of session rows, in insertion order. -/
abbrev DB := List Session

/-- `UPDATE sessions SET ... WHERE id = sid` — applies `f` to every row whose
`id` equals `sid`. -/
def updateById (db : DB) (sid : Nat) (f : Session → Session) : DB :=
  db.map fun s => if s.id = sid then f s else s

/-- Model of `SELECT ... WHERE p ORDER BY created_at DESC LIMIT 1`: the first
row (in list order) among those satisfying `p` with maximal `created_at`. -/
def newerOf (a b : Session) : Session :=
  if b.created_at > a.created_at then b else a

def pickNewest (l : List Session) : Option Session :=
  l.foldl (fun acc s =>
    match acc with
    | none => some s
    | some t => some (newerOf t s)) none

def selectNewest (p : Session → Bool) (db : DB) : Option Session :=
  pickNewest (db.filter p)

theorem newerOf_cases (a b : Session) : newerOf a b = a ∨ newerOf a b = b := by
  unfold newerOf; split <;> simp

theorem pickNewest_some_aux (l : List Session) (t : Session) :
    ∀ u, l.foldl (fun acc s =>
      match acc with
      | none => some s
      | some t => some (newerOf t s)) (some t) = some u → u = t ∨ u ∈ l := by
  induction l generalizing t with
  | nil => intro u h; simp at h; exact Or.inl h.symm
  | cons a as ih =>
      intro u h
      simp only [List.foldl_cons] at h
      rcases ih (newerOf t a) u h with h1 | h1
      · rcases newerOf_cases t a with h2 | h2
        · exact Or.inl (h1.trans h2)
        · exact Or.inr (by simp [h1.trans h2])
      · exact Or.inr (List.mem_cons_of_mem _ h1)

theorem pickNewest_mem (l : List Session) (s : Session)
    (h : pickNewest l = some s) : s ∈ l := by
  unfold pickNewest at h
  cases l with
  | nil => simp at h
  | cons a as =>
      simp only [List.foldl_cons] at h
      rcases pickNewest_some_aux as a s h with h1 | h1
      · simp [h1]
      · exact List.mem_cons_of_mem _ h1

theorem pickNewest_nil_iff (l : List Session) :
    pickNewest l = none ↔ l = [] := by
  constructor
  · intro h
    cases l with
    | nil => rfl
    | cons a as =>
        exfalso
        unfold pickNewest at h
        simp only [List.foldl_cons] at h
        revert h
        have : ∀ (bs : List Session) (t : Session),
            bs.foldl (fun acc s =>
              match acc with
              | none => some s
              | some t => some (newerOf t s)) (some t) ≠ none := by
          intro bs
          induction bs with
          | nil => intro t; simp
          | cons b bs ih => intro t; simpa using ih (newerOf t b)
        intro h; exact this as a h
  · intro h; subst h; rfl

theorem selectNewest_mem (p : Session → Bool) (db : DB) (s : Session)
    (h : selectNewest p db = some s) : s ∈ db ∧ p s = true := by
  have hmem := pickNewest_mem _ _ h
  exact ⟨(List.mem_filter.mp hmem).1, (List.mem_filter.mp hmem).2⟩

theorem selectNewest_eq_none (p : Session → Bool) (db : DB)
    (h : ∀ s ∈ db, p s = false) : selectNewest p db = none := by
  unfold selectNewest
  rw [pickNewest_nil_iff]
  exact List.filter_eq_nil_iff.mpr (fun s hs => by simp [h s hs])

/-! ## Payment gateway adapter (`lib/paystack.ts`)

The HTTP exchange with the gateway is modelled by passing the gateway's
parsed JSON response as a parameter. -/

/-- Shape of `data` in a Paystack charge response (`data?.reference`,
`data?.status`); the whole object may be absent at runtime. -/
structure ChargeData where
  reference : String
  status : String
deriving DecidableEq, Repr

structure PaystackChargeResponse where
  status : Bool
  message : String
  data : Option ChargeData
deriving DecidableEq, Repr

structure ChargeResult where
  success : Bool
  reference : String
  message : String
deriving DecidableEq, Repr

/-- The `isPending` normalization in `initiateMpesaCharge`: an M-Pesa charge
that is awaiting user confirmation comes back with `message` `"Charge
attempted"` or a `data.status` of `send_otp`, `pay_offline` or `pending`. -/
def chargeIsPending (r : PaystackChargeResponse) : Bool :=
  r.message == "Charge attempted" ||
  r.data.any (fun d => d.status == "send_otp") ||
  r.data.any (fun d => d.status == "pay_offline") ||
  r.data.any (fun d => d.status == "pending")

/-- Result normalization of `initiateMpesaCharge`: `success` is the
gateway's top-level `status` flag OR the awaiting-confirmation marker;
`reference` falls back to the request reference when the response carries
none (`data?.reference || reference`). -/
def initiateMpesaCharge (resp : PaystackChargeResponse) (reference : String) :
    ChargeResult :=
  { success := resp.status || chargeIsPending resp,
    reference :=
      match resp.data with
      | some d => if d.reference = "" then reference else d.reference
      | none => reference,
    message := resp.message }

/-- `verifyWebhookSignature`: the hex HMAC-SHA512 digest of the raw body
under the secret key, compared for equality with the supplied header value.
The digest function itself is a parameter. -/
def verifyWebhookSignature (hmacSha512 : String → String → String)
    (secret body signature : String) : Bool :=
  hmacSha512 secret body == signature

/-! ## OTP issuer (`lib/paystack.ts`) -/

/-- Decimal digit character, `48 + d` in code points. -/
def decDigitChar (d : Nat) : Char := Char.ofNat (48 + d)

/-- Decimal conversion underlying JavaScript `Number#toString` for
naturals: emit digits least-significant first onto the accumulator. -/
def toDecimalAux (n : Nat) (acc : List Char) : List Char :=
  if h : n = 0 then acc
  else toDecimalAux (n / 10) (decDigitChar (n % 10) :: acc)
termination_by n
decreasing_by exact Nat.div_lt_self (Nat.pos_of_ne_zero h) (by norm_num)

/-- JavaScript `Number#toString` on a natural number. -/
def numToString (n : Nat) : String :=
  if n = 0 then "0" else String.mk (toDecimalAux n [])

/-- `generateOTP`: `crypto.randomInt(1000, 10000).toString()`.  The
cryptographic random source is a parameter; `crypto.randomInt(lo, hi)`
returns an integer in `[lo, hi)`. -/
def generateOTP (randomInt : Nat → Nat → Nat) : String :=
  numToString (randomInt 1000 10000)

/-! ## Route handlers

Each handler takes the database, the request inputs, and explicit values
for its external effects (current time, freshly generated ids/references,
the gateway charge outcome), and returns the new database and response. -/

def INITIAL_FEE_KES : Nat := 10

def FLAT_RATE_KES : Nat := 10

def RATE_PER_MINUTE_KES : Nat := 5

/-- `Math.max(1, Math.ceil(diffMs / 60000))` — elapsed milliseconds to
billed minutes. -/
def minutesUsed (diffMs : Nat) : Nat :=
  max 1 ((diffMs + 59999) / 60000)

/-- Guard predicate of `POST /api/session/start`:
`status IN ('pending', 'paid', 'active')` for the locker. -/
def openForStart (lid : String) (s : Session) : Bool :=
  decide (s.locker_id = lid ∧
    (s.status = Status.pending ∨ s.status = Status.paid ∨
     s.status = Status.active))

inductive StartResult where
  | missingFields
  | conflict
  | gatewayFailed (session_id : Nat)
  | ok (session_id : Nat)
deriving DecidableEq, Repr

/-- `POST /api/session/start` (`src/app/api/session/start/route.ts`). -/
def startPOST (db : DB) (phone lid : String) (newId : Nat)
    (reference : String) (now : Nat) (chargeSuccess : Bool) :
    DB × StartResult :=
  if phone = "" ∨ lid = "" then (db, StartResult.missingFields)
  else if db.filter (openForStart lid) ≠ [] then (db, StartResult.conflict)
  else
    let sess : Session :=
      { id := newId, locker_id := lid, phone := phone,
        status := Status.pending, paystack_ref := some reference,
        amount_initial := INITIAL_FEE_KES, created_at := now }
    let db1 := db ++ [sess]
    if chargeSuccess then (db1, StartResult.ok newId)
    else
      (updateById db1 newId (fun s => { s with status := Status.failed }),
       StartResult.gatewayFailed newId)

/-- Lookup predicate of `POST /api/session/retrieve`:
`status IN ('active', 'pending_payment')` for the locker. -/
def retrieveMatch (lid : String) (s : Session) : Bool :=
  decide (s.locker_id = lid ∧
    (s.status = Status.active ∨ s.status = Status.pending_payment))

inductive RetrieveResult where
  | missingFields
  | notFound
  | paymentFailed
  | ok (session_id minutes_used amount : Nat)
deriving DecidableEq, Repr

/-- `POST /api/session/retrieve` (`src/app/api/session/retrieve/route.ts`).
The session is moved to `pending_payment` (with phone, reference and flat
amount) before the charge is initiated; a failed charge leaves that update
in place and returns a 502. -/
def retrievePOST (db : DB) (lid phone reference : String) (now : Nat)
    (chargeSuccess : Bool) : DB × RetrieveResult :=
  if lid = "" ∨ phone = "" then (db, RetrieveResult.missingFields)
  else
    match selectNewest (retrieveMatch lid) db with
    | none => (db, RetrieveResult.notFound)
    | some s =>
        let diffMs := now - s.started_at.getD 0
        let mins := minutesUsed diffMs
        let amount := FLAT_RATE_KES
        let db1 := updateById db s.id fun t =>
          { t with phone := phone, status := Status.pending_payment,
                   paystack_ref := some reference, amount_final := amount }
        if chargeSuccess then (db1, RetrieveResult.ok s.id mins amount)
        else (db1, RetrieveResult.paymentFailed)

inductive ChargeStatus where
  | sent
  | failed
deriving DecidableEq, Repr

inductive EndResult where
  | missingField
  | notFound
  | ok (session_id minutes_used amount_charged : Nat)
       (charge_status : ChargeStatus)
deriving DecidableEq, Repr

/-- Lookup predicate of the charging end handler: `status = 'active'`. -/
def endMatch (lid : String) (s : Session) : Bool :=
  decide (s.locker_id = lid ∧ s.status = Status.active)

/-- `POST /api/session/end` (`src/app/api/session/end/route.ts`): bills
ceiling minutes at `RATE_PER_MINUTE_KES`, initiates the closing charge,
then marks the session `ended` regardless of the charge outcome; the
charge outcome is surfaced as `charge_status`. -/
def endPOST (db : DB) (lid : String) (now : Nat) (chargeSuccess : Bool) :
    DB × EndResult :=
  if lid = "" then (db, EndResult.missingField)
  else
    match selectNewest (endMatch lid) db with
    | none => (db, EndResult.notFound)
    | some s =>
        let diffMs := now - s.started_at.getD 0
        let mins := minutesUsed diffMs
        let amount := mins * RATE_PER_MINUTE_KES
        (updateById db s.id fun t =>
          { t with status := Status.ended, ended_at := some now,
                   amount_final := amount },
         EndResult.ok s.id mins amount
           (if chargeSuccess then ChargeStatus.sent else ChargeStatus.failed))

/-- Update predicate of the simple end handler (`src/unnamed/part_003`):
`status IN ('paid', 'active', 'pending_payment')` for the locker. -/
def endSimpleMatch (lid : String) (s : Session) : Bool :=
  decide (s.locker_id = lid ∧
    (s.status = Status.paid ∨ s.status = Status.active ∨
     s.status = Status.pending_payment))

inductive EndSimpleResult where
  | missingField
  | notFound
  | ok (session_id amount : Nat)
deriving DecidableEq, Repr

/-- The other `POST /api/session/end` (`src/unnamed/part_003`): a single
`UPDATE ... RETURNING` that ends every matching session; 404 iff the update
touched zero rows.  The response reports the first returned row. -/
def endSimplePOST (db : DB) (lid : String) (now : Nat) :
    DB × EndSimpleResult :=
  if lid = "" then (db, EndSimpleResult.missingField)
  else
    match db.filter (endSimpleMatch lid) with
    | [] => (db, EndSimpleResult.notFound)
    | m :: _ =>
        (db.map fun s =>
          if endSimpleMatch lid s then
            { s with status := Status.ended, ended_at := some now }
          else s,
         EndSimpleResult.ok m.id m.amount_final)

inductive PollResult where
  | badRequest
  | notPaid
  | paidWithOtp (otp : String)
deriving DecidableEq, Repr

/-- Selection predicate of `GET /api/session/status/[locker_id]`:
`status = 'paid' AND otp_delivered = FALSE AND otp_plain IS NOT NULL`. -/
def pollMatch (lid : String) (s : Session) : Bool :=
  decide (s.locker_id = lid ∧ s.status = Status.paid ∧
    s.otp_delivered = false ∧ s.otp_plain ≠ none)

/-- `GET /api/session/status/[locker_id]`
(`src/app/api/session/status/[locker_id]/route.ts`): reads the pending
OTP, then issues the conditional delivery update
`SET otp_delivered = TRUE, otp_plain = NULL WHERE id = .. AND
otp_delivered = FALSE`, and returns the code read before the update. -/
def statusGET (db : DB) (lid : String) : DB × PollResult :=
  if lid = "" then (db, PollResult.badRequest)
  else
    match selectNewest (pollMatch lid) db with
    | none => (db, PollResult.notPaid)
    | some s =>
        (db.map fun t =>
          if t.id = s.id ∧ t.otp_delivered = false then
            { t with otp_delivered := true, otp_plain := none }
          else t,
         PollResult.paidWithOtp (s.otp_plain.getD ""))

/-- Parsed webhook event: `event` type and `data.reference`. -/
structure WebhookEvent where
  event : String
  reference : String
deriving DecidableEq, Repr

inductive WebhookResult where
  | invalidSignature
  | received
deriving DecidableEq, Repr

def webhookRefMatch (ref : String) (s : Session) : Bool :=
  decide (s.paystack_ref = some ref)

/-- `POST /api/webhook/paystack` (`src/app/api/webhook/paystack/route.ts`).
Verifies the HMAC of the raw body against the `x-paystack-signature`
header (absent header compared as the empty string) before parsing; on an
authentic `charge.success` event it finds the session by reference and,
only if its status is still `pending`, mints the OTP and applies the
status-qualified update to `paid`.  Every authentic request is
acknowledged with `{received: true}`.  `parseJson` returning `none` models
`JSON.parse` throwing, which lands in the catch-all that also acknowledges.
The freshly minted OTP and its hash are the `otp`/`otpHash` parameters. -/
def webhookPOST (hmacSha512 : String → String → String) (secret : String)
    (parseJson : String → Option WebhookEvent)
    (rawBody : String) (sigHeader : Option String)
    (otp otpHash : String) (db : DB) : DB × WebhookResult :=
  let signature := sigHeader.getD ""
  if ¬ verifyWebhookSignature hmacSha512 secret rawBody signature then
    (db, WebhookResult.invalidSignature)
  else
    match parseJson rawBody with
    | none => (db, WebhookResult.received)
    | some ev =>
        if ev.event = "charge.success" then
          match db.find? (webhookRefMatch ev.reference) with
          | none => (db, WebhookResult.received)
          | some s =>
              if s.status ≠ Status.pending then (db, WebhookResult.received)
              else
                (db.map fun t =>
                  if t.id = s.id ∧ t.status = Status.pending then
                    { t with status := Status.paid,
                             otp_hash := some otpHash,
                             otp_plain := some otp,
                             otp_delivered := false }
                  else t,
                 WebhookResult.received)
        else (db, WebhookResult.received)

/-- The webhook handler variant in `src/unnamed/part_002`: identical flow
but the idempotency qualifier targets `pending_payment` (the retrieval
flow) instead of `pending`. -/
def webhook2POST (hmacSha512 : String → String → String) (secret : String)
    (parseJson : String → Option WebhookEvent)
    (rawBody : String) (sigHeader : Option String)
    (otp otpHash : String) (db : DB) : DB × WebhookResult :=
  let signature := sigHeader.getD ""
  if ¬ verifyWebhookSignature hmacSha512 secret rawBody signature then
    (db, WebhookResult.invalidSignature)
  else
    match parseJson rawBody with
    | none => (db, WebhookResult.received)
    | some ev =>
        if ev.event = "charge.success" then
          match db.find? (webhookRefMatch ev.reference) with
          | none => (db, WebhookResult.received)
          | some s =>
              if s.status ≠ Status.pending_payment then
                (db, WebhookResult.received)
              else
                (db.map fun t =>
                  if t.id = s.id ∧ t.status = Status.pending_payment then
                    { t with status := Status.paid,
                             otp_hash := some otpHash,
                             otp_plain := some otp,
                             otp_delivered := false }
                  else t,
                 WebhookResult.received)
        else (db, WebhookResult.received)

/-! ## Helper lemmas -/

/-- The nat-arithmetic form of `Math.ceil(diffMs / 60000)` agrees with the
mathematical ceiling of the rational division. -/
theorem add_pred_div_eq_ceil (d : Nat) :
    (d + 59999) / 60000 = ⌈(d : ℚ) / 60000⌉₊ := by
  have h60 : (0 : ℚ) < 60000 := by norm_num
  apply le_antisymm
  · have hle := Nat.le_ceil ((d : ℚ) / 60000)
    rw [div_le_iff₀ h60] at hle
    have hdc : d ≤ ⌈(d : ℚ) / 60000⌉₊ * 60000 := by exact_mod_cast hle
    have hlt : d + 59999 < (⌈(d : ℚ) / 60000⌉₊ + 1) * 60000 := by omega
    have := (Nat.div_lt_iff_lt_mul (by norm_num : 0 < 60000)).mpr hlt
    omega
  · apply Nat.ceil_le.mpr
    rw [div_le_iff₀ h60]
    have h1 : d + 59999 < ((d + 59999) / 60000 + 1) * 60000 :=
      (Nat.div_lt_iff_lt_mul (by norm_num : 0 < 60000)).mp (Nat.lt_succ_self _)
    have h2 : d ≤ ((d + 59999) / 60000) * 60000 := by omega
    exact_mod_cast h2

theorem map_eq_self_of_eq (f : Session → Session) (l : List Session)
    (h : ∀ t ∈ l, f t = t) : l.map f = l := by
  induction l with
  | nil => rfl
  | cons a as ih =>
      rw [List.map_cons, h a (List.mem_cons_self a as),
          ih (fun t ht => h t (List.mem_cons_of_mem a ht))]

/-- `find?` commutes with a map that does not change the predicate's
verdict on any element. -/
theorem find?_map_pred_pres (f : Session → Session) (p : Session → Bool)
    (hp : ∀ x, p (f x) = p x) (l : List Session) :
    (l.map f).find? p = (l.find? p).map f := by
  induction l with
  | nil => rfl
  | cons a as ih =>
      simp only [List.map_cons, List.find?_cons, hp a]
      cases p a <;> simp [ih]

/-- Unfolding equation for `toDecimalAux` at a nonzero argument. -/
theorem toDecimalAux_pos (n : Nat) (acc : List Char) (h : n ≠ 0) :
    toDecimalAux n acc =
      toDecimalAux (n / 10) (decDigitChar (n % 10) :: acc) := by
  rw [toDecimalAux]
  simp [h]

theorem toDecimalAux_zero (acc : List Char) : toDecimalAux 0 acc = acc := by
  rw [toDecimalAux]
  simp

theorem decDigitChar_isDigit (d : Nat) (h : d < 10) :
    (decDigitChar d).isDigit = true := by
  interval_cases d <;> decide

theorem decDigitChar_ne_zero_char (d : Nat) (h : d < 10) (h0 : d ≠ 0) :
    decDigitChar d ≠ '0' := by
  interval_cases d <;> simp_all <;> decide

/-- For a four-digit number, `numToString` is its four decimal digits. -/
theorem numToString_four_digits (n : Nat) (h1 : 1000 ≤ n) (h2 : n < 10000) :
    numToString n =
      String.mk [decDigitChar (n / 1000 % 10), decDigitChar (n / 100 % 10),
                 decDigitChar (n / 10 % 10), decDigitChar (n % 10)] := by
  have hn0 : n ≠ 0 := by omega
  have e10 : n / 10 / 10 = n / 100 := by
    rw [Nat.div_div_eq_div_mul]
  have e100 : n / 100 / 10 = n / 1000 := by
    rw [Nat.div_div_eq_div_mul]
  have e1000 : n / 1000 / 10 = n / 10000 := by
    rw [Nat.div_div_eq_div_mul]
  have h10 : n / 10 ≠ 0 := by omega
  have h100 : n / 100 ≠ 0 := by omega
  have h1000 : n / 1000 ≠ 0 := by omega
  have h10000 : n / 10000 = 0 := Nat.div_eq_of_lt h2
  unfold numToString
  rw [if_neg hn0]
  rw [toDecimalAux_pos n _ hn0,
      toDecimalAux_pos _ _ h10,
      e10,
      toDecimalAux_pos _ _ h100,
      e100,
      toDecimalAux_pos _ _ h1000,
      e1000, h10000, toDecimalAux_zero]

end AutoLock

namespace AutoLock

/-! ## Claims -/

/-- Claim C1 (code bug in the exclusivity guard): the spec's central
invariant says a start on a locker holding a session in any open status
(`active`, `pending_payment`, `paid`) must be rejected with a conflict.
The start guard only checks `('pending', 'paid', 'active')`, while the
retrieve handler writes `'pending_payment'`; evaluating the code on a
locker whose session is `pending_payment` shows start succeeding and a
second open session being created for the same locker. -/
theorem c1_start_accepts_pending_payment_locker :
    (startPOST
        [{ id := 1, locker_id := "A1", phone := "0700000001",
           status := Status.pending_payment, paystack_ref := some "ref_ret_1",
           amount_final := 10, created_at := 0 }]
        "0700000002" "A1" 2 "ref_2" 5 true).2 = StartResult.ok 2 ∧
    ((startPOST
        [{ id := 1, locker_id := "A1", phone := "0700000001",
           status := Status.pending_payment, paystack_ref := some "ref_ret_1",
           amount_final := 10, created_at := 0 }]
        "0700000002" "A1" 2 "ref_2" 5 true).1.filter fun t =>
      decide (t.locker_id = "A1" ∧
        (t.status = Status.pending ∨ t.status = Status.pending_payment ∨
         t.status = Status.paid ∨ t.status = Status.active))).length = 2 := by
  decide

/-- Claim C4: whenever the HMAC-SHA512 digest of the exact raw body under
the secret key differs from the supplied signature header (a missing
header being compared as the empty string), the webhook handler answers
with the authentication error and performs no database mutation — for
every possible JSON parse outcome, since verification precedes parsing. -/
theorem c4_webhook_signature_rejection
    (hmacSha512 : String → String → String) (secret : String)
    (parseJson : String → Option WebhookEvent)
    (rawBody : String) (sigHeader : Option String)
    (otp otpHash : String) (db : DB)
    (h : hmacSha512 secret rawBody ≠ sigHeader.getD "") :
    webhookPOST hmacSha512 secret parseJson rawBody sigHeader otp otpHash db
      = (db, WebhookResult.invalidSignature) := by
  have hb : verifyWebhookSignature hmacSha512 secret rawBody
      (sigHeader.getD "") = false := by
    simp [verifyWebhookSignature, h]
  simp [webhookPOST, hb]

theorem c4_webhook_signature_rejection_witness :
    (fun _ _ => "deadbeef" : String → String → String) "sk" "body" ≠
        (none : Option String).getD "" ∧
    webhookPOST (fun _ _ => "deadbeef") "sk" (fun _ => none) "body" none
        "1234" "hash" []
      = ([], WebhookResult.invalidSignature) :=
  ⟨by decide,
   c4_webhook_signature_rejection (fun _ _ => "deadbeef") "sk" (fun _ => none)
     "body" none "1234" "hash" [] (by decide)⟩

/-- Claim C5: when the charging end handler finds a session started
`diffMs` milliseconds ago, the billed minutes equal the ceiling of
`diffMs / 60000` with a floor of one, and the amount is that many minutes
at the fixed 5 KES per-minute rate; 61 seconds bills as 2 minutes
(10 KES) and 125 seconds as 3 minutes (15 KES). -/
theorem c5_billing_rounding (db : DB) (lid : String) (now : Nat)
    (cs : Bool) (s : Session)
    (hlid : lid ≠ "")
    (hsel : selectNewest (endMatch lid) db = some s) :
    (endPOST db lid now cs).2 =
      EndResult.ok s.id (minutesUsed (now - s.started_at.getD 0))
        (minutesUsed (now - s.started_at.getD 0) * RATE_PER_MINUTE_KES)
        (if cs then ChargeStatus.sent else ChargeStatus.failed) ∧
    (∀ diffMs : Nat, minutesUsed diffMs = max 1 ⌈(diffMs : ℚ) / 60000⌉₊) ∧
    RATE_PER_MINUTE_KES = 5 ∧
    minutesUsed 61000 = 2 ∧ minutesUsed 61000 * RATE_PER_MINUTE_KES = 10 ∧
    minutesUsed 125000 = 3 ∧ minutesUsed 125000 * RATE_PER_MINUTE_KES = 15 := by
  refine ⟨?_, ?_, rfl, by decide, by decide, by decide, by decide⟩
  · simp [endPOST, hlid, hsel]
  · intro diffMs
    unfold minutesUsed
    rw [add_pred_div_eq_ceil]

theorem c5_billing_rounding_witness :
    ("A1" : String) ≠ "" ∧
    (endPOST
        [{ id := 1, locker_id := "A1", phone := "0700000001",
           status := Status.active, started_at := some 0, created_at := 0 }]
        "A1" 61000 true).2 = EndResult.ok 1 2 10 ChargeStatus.sent := by
  refine ⟨by decide, ?_⟩
  have h := c5_billing_rounding
      [{ id := 1, locker_id := "A1", phone := "0700000001",
         status := Status.active, started_at := some 0, created_at := 0 }]
      "A1" 61000 true
      { id := 1, locker_id := "A1", phone := "0700000001",
        status := Status.active, started_at := some 0, created_at := 0 }
      (by decide) (by decide)
  rw [h.1]
  norm_num [minutesUsed, RATE_PER_MINUTE_KES]

/-- Claim C9: `initiateMpesaCharge` reports success exactly when the
gateway's top-level `status` flag is true or the response carries an
awaiting-user-confirmation marker (`message` `"Charge attempted"` or
`data.status` in `send_otp`/`pay_offline`/`pending`), and reports failure
exactly when the top-level flag is false and no such marker is present. -/
theorem c9_charge_pending_normalization
    (resp : PaystackChargeResponse) (reference : String) :
    ((initiateMpesaCharge resp reference).success = true ↔
      (resp.status = true ∨ resp.message = "Charge attempted" ∨
        ∃ d, resp.data = some d ∧
          (d.status = "send_otp" ∨ d.status = "pay_offline" ∨
           d.status = "pending"))) ∧
    ((initiateMpesaCharge resp reference).success = false ↔
      (resp.status = false ∧ resp.message ≠ "Charge attempted" ∧
        ∀ d, resp.data = some d →
          (d.status ≠ "send_otp" ∧ d.status ≠ "pay_offline" ∧
           d.status ≠ "pending"))) := by
  obtain ⟨st, msg, data⟩ := resp
  cases data with
  | none =>
      cases st <;>
        simp [initiateMpesaCharge, chargeIsPending, Option.any]
  | some d =>
      cases st with
      | false =>
          simp [initiateMpesaCharge, chargeIsPending, Option.any]
          tauto
      | true =>
          simp [initiateMpesaCharge, chargeIsPending, Option.any]

/-- Claim C10: under the contract of `crypto.randomInt` (a value in
`[lo, hi)`), every code produced by `generateOTP` is the decimal string of
an integer between 1000 and 9999, four characters long, all decimal
digits, with a nonzero leading digit; the code space `[1000, 10000)` has
exactly 9000 values. -/
theorem c10_generateOTP_shape (randomInt : Nat → Nat → Nat)
    (hr : ∀ lo hi, lo < hi → lo ≤ randomInt lo hi ∧ randomInt lo hi < hi) :
    (generateOTP randomInt).length = 4 ∧
    (generateOTP randomInt).toList.all Char.isDigit = true ∧
    (generateOTP randomInt).toList.head? ≠ some '0' ∧
    (∃ n, 1000 ≤ n ∧ n ≤ 9999 ∧ generateOTP randomInt = numToString n) ∧
    (Finset.Ico 1000 10000).card = 9000 := by
  obtain ⟨hlo, hhi⟩ := hr 1000 10000 (by norm_num)
  set n := randomInt 1000 10000 with hn
  have he := numToString_four_digits n hlo hhi
  have hd3 : n / 1000 % 10 < 10 := Nat.mod_lt _ (by norm_num)
  have hd2 : n / 100 % 10 < 10 := Nat.mod_lt _ (by norm_num)
  have hd1 : n / 10 % 10 < 10 := Nat.mod_lt _ (by norm_num)
  have hd0 : n % 10 < 10 := Nat.mod_lt _ (by norm_num)
  have hq : n / 1000 < 10 := by omega
  have hq0 : n / 1000 ≠ 0 := by omega
  have hq' : n / 1000 % 10 = n / 1000 := Nat.mod_eq_of_lt hq
  refine ⟨?_, ?_, ?_, ⟨n, hlo, by omega, rfl⟩, by simp⟩
  · show (generateOTP randomInt).length = 4
    unfold generateOTP
    rw [← hn, he]
    rfl
  · unfold generateOTP
    rw [← hn, he]
    simp only [String.toList, String.mk, List.all_cons, List.all_nil]
    rw [decDigitChar_isDigit _ hd3, decDigitChar_isDigit _ hd2,
        decDigitChar_isDigit _ hd1, decDigitChar_isDigit _ hd0]
    rfl
  · unfold generateOTP
    rw [← hn, he]
    simp only [String.toList, String.mk, List.head?]
    intro hcontra
    apply decDigitChar_ne_zero_char (n / 1000 % 10) hd3 (by omega)
    injection hcontra

theorem c10_generateOTP_shape_witness :
    (generateOTP fun lo _ => lo).length = 4 ∧
    (generateOTP fun lo _ => lo).toList.all Char.isDigit = true ∧
    (generateOTP fun lo _ => lo).toList.head? ≠ some '0' ∧
    (∃ n, 1000 ≤ n ∧ n ≤ 9999 ∧ (generateOTP fun lo _ => lo) = numToString n) ∧
    (Finset.Ico 1000 10000).card = 9000 :=
  c10_generateOTP_shape (fun lo _ => lo) (fun lo _hi h => ⟨Nat.le_refl lo, h⟩)

/-- The per-session delivery invariant: a delivered session no longer holds
the plaintext code. -/
def OtpInvariant (db : DB) : Prop :=
  ∀ s ∈ db, s.otp_delivered = true → s.otp_plain = none

/-- Claim C2: the poll delivery update preserves the invariant that
`otp_plain` is null whenever `otp_delivered` is true; the delivering poll
returns the code and flips the session to delivered-with-null-plain in the
same conditional write, and a second poll against the same session finds
nothing to deliver and answers `{paid: false}` without further mutation. -/
theorem c2_otp_delivery_exactly_once (db : DB) (lid : String) (s : Session)
    (hlid : lid ≠ "")
    (hinv : OtpInvariant db)
    (hsel : selectNewest (pollMatch lid) db = some s)
    (huniq : ∀ t ∈ db, pollMatch lid t = true → t.id = s.id) :
    (statusGET db lid).2 = PollResult.paidWithOtp (s.otp_plain.getD "") ∧
    OtpInvariant (statusGET db lid).1 ∧
    (∀ t ∈ (statusGET db lid).1, t.id = s.id →
        t.otp_delivered = true ∧ t.otp_plain = none) ∧
    statusGET (statusGET db lid).1 lid
      = ((statusGET db lid).1, PollResult.notPaid) := by
  have hstep : statusGET db lid =
      (db.map fun t =>
        if t.id = s.id ∧ t.otp_delivered = false then
          { t with otp_delivered := true, otp_plain := none }
        else t,
       PollResult.paidWithOtp (s.otp_plain.getD "")) := by
    simp [statusGET, hlid, hsel]
  rw [hstep]
  refine ⟨rfl, ?_, ?_, ?_⟩
  · intro t ht hdel
    obtain ⟨t0, ht0, hmap⟩ := List.mem_map.mp ht
    by_cases hc : t0.id = s.id ∧ t0.otp_delivered = false
    · rw [if_pos hc] at hmap
      rw [← hmap]
    · rw [if_neg hc] at hmap
      subst hmap
      exact hinv t0 ht0 hdel
  · intro t ht hid
    obtain ⟨t0, ht0, hmap⟩ := List.mem_map.mp ht
    by_cases hc : t0.id = s.id ∧ t0.otp_delivered = false
    · rw [if_pos hc] at hmap
      rw [← hmap]
      exact ⟨rfl, rfl⟩
    · rw [if_neg hc] at hmap
      subst hmap
      have hdel : t0.otp_delivered = true := by
        by_cases hb : t0.otp_delivered = false
        · exact absurd ⟨hid, hb⟩ hc
        · simpa using hb
      exact ⟨hdel, hinv t0 ht0 hdel⟩
  · have hnone : selectNewest (pollMatch lid)
        (db.map fun t =>
          if t.id = s.id ∧ t.otp_delivered = false then
            { t with otp_delivered := true, otp_plain := none }
          else t) = none := by
      apply selectNewest_eq_none
      intro t ht
      obtain ⟨t0, ht0, hmap⟩ := List.mem_map.mp ht
      by_cases hc : t0.id = s.id ∧ t0.otp_delivered = false
      · rw [if_pos hc] at hmap
        subst hmap
        simp [pollMatch]
      · rw [if_neg hc] at hmap
        subst hmap
        by_cases h : pollMatch lid t0 = true
        · have hcomp := h
          simp only [pollMatch, decide_eq_true_eq] at hcomp
          exact absurd ⟨huniq t0 ht0 h, hcomp.2.2.1⟩ hc
        · simpa using h
    simp [statusGET, hlid, hnone]

theorem c2_otp_delivery_exactly_once_witness :
    (statusGET
        [{ id := 1, locker_id := "A1", phone := "0700000001",
           status := Status.paid, otp_hash := some "h",
           otp_plain := some "1234", otp_delivered := false,
           created_at := 0 }] "A1").2 = PollResult.paidWithOtp "1234" ∧
    statusGET
        ((statusGET
          [{ id := 1, locker_id := "A1", phone := "0700000001",
             status := Status.paid, otp_hash := some "h",
             otp_plain := some "1234", otp_delivered := false,
             created_at := 0 }] "A1").1) "A1"
      = ((statusGET
          [{ id := 1, locker_id := "A1", phone := "0700000001",
             status := Status.paid, otp_hash := some "h",
             otp_plain := some "1234", otp_delivered := false,
             created_at := 0 }] "A1").1, PollResult.notPaid) := by
  have h := c2_otp_delivery_exactly_once
      [{ id := 1, locker_id := "A1", phone := "0700000001",
         status := Status.paid, otp_hash := some "h",
         otp_plain := some "1234", otp_delivered := false, created_at := 0 }]
      "A1"
      { id := 1, locker_id := "A1", phone := "0700000001",
        status := Status.paid, otp_hash := some "h",
        otp_plain := some "1234", otp_delivered := false, created_at := 0 }
      (by decide)
      (by intro t ht hdel; simp at ht; subst ht; simp_all)
      (by decide)
      (by intro t ht hpm; simp at ht; subst ht; rfl)
  exact ⟨h.1, h.2.2.2⟩

/-- Claim C3: delivering the same authentic `charge.success` event twice
against the same payment reference performs exactly one transition of the
matched `pending` session to `paid` with the OTP fields set; the second
delivery (even with a fresh OTP mint) finds the status already past the
`pending` qualifier, leaves the database untouched, and still answers the
success acknowledgement. -/
theorem c3_webhook_idempotent
    (hmacSha512 : String → String → String) (secret : String)
    (parseJson : String → Option WebhookEvent)
    (rawBody : String) (sigHeader : Option String)
    (otp otpHash otp2 otpHash2 : String)
    (db : DB) (ev : WebhookEvent) (s : Session)
    (hsig : verifyWebhookSignature hmacSha512 secret rawBody
      (sigHeader.getD "") = true)
    (hparse : parseJson rawBody = some ev)
    (hev : ev.event = "charge.success")
    (hfind : db.find? (webhookRefMatch ev.reference) = some s)
    (hst : s.status = Status.pending) :
    (webhookPOST hmacSha512 secret parseJson rawBody sigHeader otp otpHash
        db).2 = WebhookResult.received ∧
    ((webhookPOST hmacSha512 secret parseJson rawBody sigHeader otp otpHash
        db).1).find? (webhookRefMatch ev.reference) =
      some { s with status := Status.paid, otp_hash := some otpHash,
                    otp_plain := some otp, otp_delivered := false } ∧
    webhookPOST hmacSha512 secret parseJson rawBody sigHeader otp2 otpHash2
        ((webhookPOST hmacSha512 secret parseJson rawBody sigHeader otp
          otpHash db).1)
      = ((webhookPOST hmacSha512 secret parseJson rawBody sigHeader otp
          otpHash db).1, WebhookResult.received) := by
  have hne : ¬ s.status ≠ Status.pending := by simp [hst]
  have hstep : webhookPOST hmacSha512 secret parseJson rawBody sigHeader otp
      otpHash db =
      (db.map fun t =>
        if t.id = s.id ∧ t.status = Status.pending then
          { t with status := Status.paid, otp_hash := some otpHash,
                   otp_plain := some otp, otp_delivered := false }
        else t,
       WebhookResult.received) := by
    simp [webhookPOST, hsig, hparse, hev, hfind, hne]
  have hpres : ∀ t : Session,
      webhookRefMatch ev.reference
        (if t.id = s.id ∧ t.status = Status.pending then
          { t with status := Status.paid, otp_hash := some otpHash,
                   otp_plain := some otp, otp_delivered := false }
        else t) = webhookRefMatch ev.reference t := by
    intro t
    by_cases hc : t.id = s.id ∧ t.status = Status.pending
    · rw [if_pos hc]
      simp [webhookRefMatch]
    · rw [if_neg hc]
  have hfind1 : (db.map fun t =>
      if t.id = s.id ∧ t.status = Status.pending then
        { t with status := Status.paid, otp_hash := some otpHash,
                 otp_plain := some otp, otp_delivered := false }
      else t).find? (webhookRefMatch ev.reference) =
      some { s with status := Status.paid, otp_hash := some otpHash,
                    otp_plain := some otp, otp_delivered := false } := by
    rw [find?_map_pred_pres _ _ hpres, hfind]
    simp [hst]
  rw [hstep]
  refine ⟨rfl, hfind1, ?_⟩
  simp [webhookPOST, hsig, hparse, hev, hfind1]

theorem c3_webhook_idempotent_witness :
    (webhookPOST (fun _ _ => "sig") "sk"
        (fun _ => some { event := "charge.success", reference := "ref1" })
        "body" (some "sig") "1234" "h1"
        [{ id := 1, locker_id := "A1", phone := "0700000001",
           status := Status.pending, paystack_ref := some "ref1",
           created_at := 0 }]).2 = WebhookResult.received ∧
    ((webhookPOST (fun _ _ => "sig") "sk"
        (fun _ => some { event := "charge.success", reference := "ref1" })
        "body" (some "sig") "1234" "h1"
        [{ id := 1, locker_id := "A1", phone := "0700000001",
           status := Status.pending, paystack_ref := some "ref1",
           created_at := 0 }]).1).find? (webhookRefMatch "ref1") =
      some { id := 1, locker_id := "A1", phone := "0700000001",
             status := Status.paid, otp_hash := some "h1",
             otp_plain := some "1234", otp_delivered := false,
             paystack_ref := some "ref1", created_at := 0 } ∧
    webhookPOST (fun _ _ => "sig") "sk"
        (fun _ => some { event := "charge.success", reference := "ref1" })
        "body" (some "sig") "5678" "h2"
        ((webhookPOST (fun _ _ => "sig") "sk"
          (fun _ => some { event := "charge.success", reference := "ref1" })
          "body" (some "sig") "1234" "h1"
          [{ id := 1, locker_id := "A1", phone := "0700000001",
             status := Status.pending, paystack_ref := some "ref1",
             created_at := 0 }]).1)
      = ((webhookPOST (fun _ _ => "sig") "sk"
          (fun _ => some { event := "charge.success", reference := "ref1" })
          "body" (some "sig") "1234" "h1"
          [{ id := 1, locker_id := "A1", phone := "0700000001",
             status := Status.pending, paystack_ref := some "ref1",
             created_at := 0 }]).1, WebhookResult.received) :=
  c3_webhook_idempotent (fun _ _ => "sig") "sk"
    (fun _ => some { event := "charge.success", reference := "ref1" })
    "body" (some "sig") "1234" "h1" "5678" "h2"
    [{ id := 1, locker_id := "A1", phone := "0700000001",
       status := Status.pending, paystack_ref := some "ref1",
       created_at := 0 }]
    { event := "charge.success", reference := "ref1" }
    { id := 1, locker_id := "A1", phone := "0700000001",
      status := Status.pending, paystack_ref := some "ref1", created_at := 0 }
    (by decide) rfl rfl (by decide) rfl

/-- Claim C6 counterexample: the charging end handler
(`src/app/api/session/end/route.ts`) matches only `status = 'active'`, so
on a locker whose session is `paid` — a status the claim places in end's
domain — it reports not-found even though an open session exists. -/
theorem c6_end_paid_not_found :
    (endPOST
        [{ id := 1, locker_id := "A1", phone := "0700000001",
           status := Status.paid, otp_hash := some "h",
           otp_delivered := true, created_at := 0 }]
        "A1" 61000 true).2 = EndResult.notFound ∧
    endSimpleMatch "A1"
      { id := 1, locker_id := "A1", phone := "0700000001",
        status := Status.paid, otp_hash := some "h",
        otp_delivered := true, created_at := 0 } = true := by
  decide

/-- Claim C6 as amended: the simple end handler (`src/unnamed/part_003`)
has the claimed domain — it moves every session of the locker in
`{active, pending_payment, paid}` to `ended` (stamping `ended_at`) and
reports not-found exactly when no such session exists; the charging end
handler (`src/app/api/session/end/route.ts`) instead matches only
`active` sessions: it ends the newest active session, and reports
not-found whenever the locker has no active session, even if
`pending_payment` or `paid` sessions exist. -/
theorem c6_end_transition_domain (db : DB) (lid : String) (now : Nat)
    (cs : Bool) (hlid : lid ≠ "") :
    ((∀ t ∈ db, endSimpleMatch lid t = false) →
        endSimplePOST db lid now = (db, EndSimpleResult.notFound)) ∧
    (∀ s ∈ db, endSimpleMatch lid s = true →
        (endSimplePOST db lid now).2 ≠ EndSimpleResult.notFound ∧
        ∃ t ∈ (endSimplePOST db lid now).1,
          t.id = s.id ∧ t.status = Status.ended ∧ t.ended_at = some now) ∧
    ((∀ t ∈ db, endMatch lid t = false) →
        endPOST db lid now cs = (db, EndResult.notFound)) ∧
    (∀ s, selectNewest (endMatch lid) db = some s →
        ∃ t ∈ (endPOST db lid now cs).1,
          t.id = s.id ∧ t.status = Status.ended ∧ t.ended_at = some now) := by
  refine ⟨?_, ?_, ?_, ?_⟩
  · intro hnone
    have hfil : db.filter (endSimpleMatch lid) = [] :=
      List.filter_eq_nil_iff.mpr (fun t ht => by simp [hnone t ht])
    simp [endSimplePOST, hlid, hfil]
  · intro s hs hm
    have hmem : s ∈ db.filter (endSimpleMatch lid) :=
      List.mem_filter.mpr ⟨hs, hm⟩
    cases hfil : db.filter (endSimpleMatch lid) with
    | nil => rw [hfil] at hmem; simp at hmem
    | cons m ms =>
        have hstep : endSimplePOST db lid now =
            (db.map fun t =>
              if endSimpleMatch lid t then
                { t with status := Status.ended, ended_at := some now }
              else t,
             EndSimpleResult.ok m.id m.amount_final) := by
          simp [endSimplePOST, hlid, hfil]
        rw [hstep]
        refine ⟨by simp, ?_⟩
        refine ⟨_, List.mem_map_of_mem _ hs, ?_, ?_, ?_⟩ <;> simp [hm]
  · intro hnone
    have hsel : selectNewest (endMatch lid) db = none :=
      selectNewest_eq_none _ _ hnone
    simp [endPOST, hlid, hsel]
  · intro s hsel
    obtain ⟨hs, _⟩ := selectNewest_mem _ _ _ hsel
    have hstep : (endPOST db lid now cs).1 =
        updateById db s.id fun t =>
          { t with status := Status.ended, ended_at := some now,
                   amount_final :=
                     minutesUsed (now - s.started_at.getD 0) *
                       RATE_PER_MINUTE_KES } := by
      simp [endPOST, hlid, hsel]
    rw [hstep]
    unfold updateById
    refine ⟨_, List.mem_map_of_mem _ hs, ?_, ?_, ?_⟩ <;> simp

theorem c6_end_transition_domain_witness :
    (endSimplePOST
        [{ id := 1, locker_id := "A1", phone := "0700000001",
           status := Status.paid, otp_hash := some "h",
           otp_delivered := true, created_at := 0 }]
        "A1" 61000).2 ≠ EndSimpleResult.notFound := by
  have h := c6_end_transition_domain
      [{ id := 1, locker_id := "A1", phone := "0700000001",
         status := Status.paid, otp_hash := some "h",
         otp_delivered := true, created_at := 0 }]
      "A1" 61000 true (by decide)
  exact (h.2.1
      { id := 1, locker_id := "A1", phone := "0700000001",
        status := Status.paid, otp_hash := some "h",
        otp_delivered := true, created_at := 0 }
      (by simp) (by decide)).1

/-- Claim C7: whenever the charging end handler finds an active session,
the session reaches `ended` with `ended_at` and `amount_final` written —
for either charge outcome — and the response is a success carrying
`charge_status` `sent` when the closing charge succeeded and `failed`
otherwise. -/
theorem c7_end_nonfatal_on_charge_failure (db : DB) (lid : String)
    (now : Nat) (s : Session) (hlid : lid ≠ "")
    (hsel : selectNewest (endMatch lid) db = some s) :
    ∀ chargeSuccess : Bool,
      (∃ t ∈ (endPOST db lid now chargeSuccess).1,
        t.id = s.id ∧ t.status = Status.ended ∧ t.ended_at = some now ∧
        t.amount_final =
          minutesUsed (now - s.started_at.getD 0) * RATE_PER_MINUTE_KES) ∧
      (endPOST db lid now chargeSuccess).2 =
        EndResult.ok s.id (minutesUsed (now - s.started_at.getD 0))
          (minutesUsed (now - s.started_at.getD 0) * RATE_PER_MINUTE_KES)
          (if chargeSuccess then ChargeStatus.sent else ChargeStatus.failed)
    := by
  intro cs
  obtain ⟨hs, _⟩ := selectNewest_mem _ _ _ hsel
  have hstep : endPOST db lid now cs =
      (updateById db s.id fun t =>
        { t with status := Status.ended, ended_at := some now,
                 amount_final :=
                   minutesUsed (now - s.started_at.getD 0) *
                     RATE_PER_MINUTE_KES },
       EndResult.ok s.id (minutesUsed (now - s.started_at.getD 0))
         (minutesUsed (now - s.started_at.getD 0) * RATE_PER_MINUTE_KES)
         (if cs then ChargeStatus.sent else ChargeStatus.failed)) := by
    simp [endPOST, hlid, hsel]
  rw [hstep]
  refine ⟨?_, rfl⟩
  unfold updateById
  refine ⟨_, List.mem_map_of_mem _ hs, ?_, ?_, ?_, ?_⟩ <;> simp

theorem c7_end_nonfatal_on_charge_failure_witness :
    (endPOST
        [{ id := 1, locker_id := "A1", phone := "0700000001",
           status := Status.active, started_at := some 0, created_at := 0 }]
        "A1" 125000 false).2
      = EndResult.ok 1 (minutesUsed 125000) (minutesUsed 125000 * 5)
          ChargeStatus.failed := by
  have h := c7_end_nonfatal_on_charge_failure
      [{ id := 1, locker_id := "A1", phone := "0700000001",
         status := Status.active, started_at := some 0, created_at := 0 }]
      "A1" 125000
      { id := 1, locker_id := "A1", phone := "0700000001",
        status := Status.active, started_at := some 0, created_at := 0 }
      (by decide) (by decide) false
  simpa [RATE_PER_MINUTE_KES] using h.2

/-- Claim C8 counterexample: on a failed charge initiation during
retrieve, the session is left in `pending_payment` — not marked `failed`
as the claim requires — while the caller receives the gateway error. -/
theorem c8_retrieve_leaves_pending_payment :
    (retrievePOST
        [{ id := 1, locker_id := "A1", phone := "0700000001",
           status := Status.active, started_at := some 0, created_at := 0 }]
        "A1" "0700000002" "ref_9" 61000 false).2
      = RetrieveResult.paymentFailed ∧
    ((retrievePOST
        [{ id := 1, locker_id := "A1", phone := "0700000001",
           status := Status.active, started_at := some 0, created_at := 0 }]
        "A1" "0700000002" "ref_9" 61000 false).1.map Session.status)
      = [Status.pending_payment] := by
  decide

/-- Claim C8 as amended: when charge initiation fails at start the new
session is immediately marked `failed` and the caller receives the
gateway-failure error; when charge initiation fails at retrieve the
session stays in the `pending_payment` state the handler wrote before
charging (deliberately, so the retrieve lookup — which matches
`pending_payment` — lets the user retry), and the caller receives the
gateway-failure error. -/
theorem c8_start_failure_atomicity (db : DB)
    (phone lid reference : String) (newId now : Nat)
    (hphone : phone ≠ "") (hlid : lid ≠ "") :
    (db.filter (openForStart lid) = [] → (∀ t ∈ db, t.id ≠ newId) →
      startPOST db phone lid newId reference now false =
        (db ++ [{ id := newId, locker_id := lid, phone := phone,
                  status := Status.failed, paystack_ref := some reference,
                  amount_initial := INITIAL_FEE_KES, created_at := now }],
         StartResult.gatewayFailed newId)) ∧
    (∀ s, selectNewest (retrieveMatch lid) db = some s →
      (retrievePOST db lid phone reference now false).2
        = RetrieveResult.paymentFailed ∧
      ∃ t ∈ (retrievePOST db lid phone reference now false).1,
        t.id = s.id ∧ t.status = Status.pending_payment ∧
        t.phone = phone ∧ t.paystack_ref = some reference) := by
  constructor
  · intro hguard hfresh
    have hstep : startPOST db phone lid newId reference now false =
        (updateById
          (db ++ [{ id := newId, locker_id := lid, phone := phone,
                    status := Status.pending,
                    paystack_ref := some reference,
                    amount_initial := INITIAL_FEE_KES, created_at := now }])
          newId (fun s => { s with status := Status.failed }),
         StartResult.gatewayFailed newId) := by
      simp [startPOST, hphone, hlid, hguard]
    rw [hstep]
    unfold updateById
    rw [List.map_append]
    have hdb : db.map (fun s =>
        if s.id = newId then { s with status := Status.failed } else s)
        = db := by
      apply map_eq_self_of_eq
      intro t ht
      rw [if_neg (hfresh t ht)]
    rw [hdb]
    simp
  · intro s hsel
    have hstep : retrievePOST db lid phone reference now false =
        (updateById db s.id fun t =>
          { t with phone := phone, status := Status.pending_payment,
                   paystack_ref := some reference,
                   amount_final := FLAT_RATE_KES },
         RetrieveResult.paymentFailed) := by
      simp [retrievePOST, hphone, hlid, hsel]
    obtain ⟨hs, _⟩ := selectNewest_mem _ _ _ hsel
    rw [hstep]
    refine ⟨rfl, ?_⟩
    unfold updateById
    refine ⟨_, List.mem_map_of_mem _ hs, ?_, ?_, ?_, ?_⟩ <;> simp

theorem c8_start_failure_atomicity_witness :
    startPOST
        [{ id := 1, locker_id := "A1", phone := "0700000001",
           status := Status.pending_payment, paystack_ref := some "ref_1",
           amount_final := 10, created_at := 0 }]
        "0700000002" "A1" 2 "ref_2" 5 false =
      ([{ id := 1, locker_id := "A1", phone := "0700000001",
          status := Status.pending_payment, paystack_ref := some "ref_1",
          amount_final := 10, created_at := 0 },
        { id := 2, locker_id := "A1", phone := "0700000002",
          status := Status.failed, paystack_ref := some "ref_2",
          amount_initial := INITIAL_FEE_KES, created_at := 5 }],
       StartResult.gatewayFailed 2) ∧
    (retrievePOST
        [{ id := 1, locker_id := "A1", phone := "0700000001",
           status := Status.pending_payment, paystack_ref := some "ref_1",
           amount_final := 10, created_at := 0 }]
        "A1" "0700000002" "ref_2" 5 false).2
      = RetrieveResult.paymentFailed := by
  have h := c8_start_failure_atomicity
      [{ id := 1, locker_id := "A1", phone := "0700000001",
         status := Status.pending_payment, paystack_ref := some "ref_1",
         amount_final := 10, created_at := 0 }]
      "0700000002" "A1" "ref_2" 2 5 (by decide) (by decide)
  refine ⟨h.1 (by decide) (by decide), ?_⟩
  exact (h.2
      { id := 1, locker_id := "A1", phone := "0700000001",
        status := Status.pending_payment, paystack_ref := some "ref_1",
        amount_final := 10, created_at := 0 }
      (by decide)).1

end AutoLock
